import Mathlib

/-!
# message.ly: credentials, login and message authorization

A shallow embedding of `src/models/user.js`, `src/routes/auth.js` and
`src/routes/messages.js`.

* Asynchronous functions are state-passing functions: they take the state of
  the collaborator they talk to and return the new state, the calls they made,
  and either the returned value or the thrown error (`Except JSError _`).
* A route handler returns the state and the ordered list of things it did:
  calls on the models, `jwt.sign`, `res.json`, `next`.
* Collaborators that are not part of the three source files (bcrypt,
  jsonwebtoken, the configuration constants, the message model) are
  parameters; the `users` table reached through `db.query` is a list of rows.
* The fields of a request body are arbitrary JSON values: the handlers and
  the user model test them for truthiness only, never for their type.
-/

namespace Messagely

/-! ## JavaScript values and errors -/

/-- A thrown JavaScript error, with the properties the code and the error
boundary read: `status` (set by `ExpressError`) and `code` (set by the
database driver). A property that is `none` is `undefined`. -/
structure JSError where
  name : String
  message : String
  status : Option Nat
  code : Option String
deriving DecidableEq, Repr

/-- The error built by `new ExpressError(message, status)`. -/
def ExpressError (message : String) (status : Nat) : JSError :=
  { name := "ExpressError", message := message, status := some status, code := none }

/-- The error thrown when an identifier that is bound nowhere is evaluated. -/
def ReferenceError (ident : String) : JSError :=
  { name := "ReferenceError", message := ident ++ " is not defined",
    status := none, code := none }

/-- The error thrown when a property is read from `undefined`. -/
def TypeError (message : String) : JSError :=
  { name := "TypeError", message := message, status := none, code := none }

/-- A JavaScript value as it occurs in a parsed request body or as the
result of `User.authenticate`: `undefined` (an absent field, or `rows[0]` of
an empty result), `null`, a boolean, a number, a string, or an array or
object. Numbers are integers (a fractional number behaves as a non-zero
integer everywhere in this code). An array or object is given by the two
texts the code can observe of it: the text the database driver sends for
it as a query parameter and the text a template literal prints for it. -/
inductive JSVal where
  | undefined
  | null
  | bool (b : Bool)
  | num (n : Int)
  | str (s : String)
  | obj (sent : String) (shown : String)
deriving DecidableEq, Repr

deriving instance DecidableEq for Except

/-- Truthiness of a value, as tested by `!x` and `if (x)`. -/
def truthy : JSVal → Bool
  | .undefined => false
  | .null => false
  | .bool b => b
  | .num n => n != 0
  | .str s => s != ""
  | .obj _ _ => true

/-- The text the database driver sends for a query parameter: `undefined`
and `null` are sent as NULL (`none`), a string as itself, any other value
as its text. -/
def prepareValue : JSVal → Option String
  | .undefined => none
  | .null => none
  | .bool b => some (if b then "true" else "false")
  | .num n => some (toString n)
  | .str s => some s
  | .obj sent _ => some sent

/-- The text stored for a body field that is used as a query parameter. -/
def text (v : JSVal) : String := (prepareValue v).getD ""

/-- The text a template literal prints for a value. -/
def interpolate : JSVal → String
  | .undefined => "undefined"
  | .null => "null"
  | .bool b => if b then "true" else "false"
  | .num n => toString n
  | .str s => s
  | .obj _ shown => shown

/-! ## The `users` table -/

/-- One row of the `users` table. -/
structure UserRow where
  username : String
  password : String
  first_name : String
  last_name : String
  phone : String
  join_at : Nat
  last_login_at : Nat
deriving DecidableEq, Repr

/-- The columns returned by the INSERT of `User.register`. -/
structure RegisteredRow where
  username : String
  password : String
  first_name : String
  last_name : String
  phone : String
deriving DecidableEq, Repr

/-- The state behind `db` and `bcrypt`: the rows of `users`, the value of
`CURRENT_TIMESTAMP`, and the entropy bcrypt draws its next salt from. -/
structure Store where
  users : List UserRow
  now : Nat
  salt : Nat
deriving DecidableEq, Repr

/-- A call made by the user model on one of its collaborators. -/
inductive ModelCall where
  | bcryptHash (data : JSVal) (rounds : Nat)
  | bcryptCompare (data : JSVal) (hash : String)
  | insertUser (username hashedPw first_name last_name phone : String)
  | selectPassword (username : Option String)
  | updateLastLogin (username : Option String)
deriving DecidableEq, Repr

/-- Is the call an INSERT query? -/
def ModelCall.isInsert : ModelCall → Bool
  | .insertUser .. => true
  | _ => false

/-- Is the call a `bcrypt.hash`? -/
def ModelCall.isHash : ModelCall → Bool
  | .bcryptHash .. => true
  | _ => false

/-- The outcome of running an asynchronous model function to completion. -/
structure Run (α : Type) where
  state : Store
  calls : List ModelCall
  result : Except JSError α

/-- The bcrypt library on strings: `hash(data, rounds)` with the salt it
draws made explicit, and `compare(data, hash)`. -/
structure Bcrypt where
  hash : String → Nat → Nat → String
  compare : String → String → Bool

/-- The error with which `bcrypt.hash` rejects data that is not a string. -/
def hashTypeError : JSError :=
  { name := "Error",
    message := "data must be a string or Buffer and salt must either be a salt string or a number of rounds",
    status := none, code := none }

/-- The error with which `bcrypt.compare` rejects data that is not a string. -/
def compareTypeError : JSError :=
  { name := "Error", message := "data and hash must be strings",
    status := none, code := none }

/-- The call `bcrypt.hash(data, rounds)` on any value: the library hashes a
string and rejects everything else. -/
def bcryptHash (bcrypt : Bcrypt) (data : JSVal) (rounds salt : Nat) : Except JSError String :=
  match data with
  | .str s => .ok (bcrypt.hash s rounds salt)
  | _ => .error hashTypeError

/-- The call `bcrypt.compare(data, hash)` on any value: the library compares
a string and rejects everything else. -/
def bcryptCompare (bcrypt : Bcrypt) (data : JSVal) (hash : String) : Except JSError Bool :=
  match data with
  | .str s => .ok (bcrypt.compare s hash)
  | _ => .error compareTypeError

/-- The error the database driver throws on a unique-constraint violation. -/
def duplicateKey : JSError :=
  { name := "error", message := "duplicate key value violates unique constraint",
    status := none, code := some "23505" }

/-- A query parameter selects a row when it is a text equal to the column;
NULL equals nothing. -/
def selects (param : Option String) (column : String) : Bool :=
  param == some column

/-- Modelled from the spec: the `users` table and its unique constraint on
`username` are not in the source files. The INSERT of `User.register`
fails with the duplicate-key error when the username is already present,
otherwise it adds the row and returns the RETURNING columns. -/
def insertUser (db : Store) (username hashedPw first_name last_name phone : String) :
    Store × Except JSError (List RegisteredRow) :=
  if username ∈ db.users.map (fun r => r.username) then
    (db, .error duplicateKey)
  else
    ({ db with users := db.users ++
        [{ username := username, password := hashedPw, first_name := first_name,
           last_name := last_name, phone := phone,
           join_at := db.now, last_login_at := db.now }] },
     .ok [{ username := username, password := hashedPw, first_name := first_name,
            last_name := last_name, phone := phone }])

/-- Modelled from the spec: the `users` table is not in the source files.
The rows of `SELECT password FROM users WHERE username = $1`. -/
def selectPassword (db : Store) (username : Option String) : List String :=
  (db.users.filter (fun r => selects username r.username)).map (fun r => r.password)

/-- Modelled from the spec: the `users` table is not in the source files.
`UPDATE users SET last_login_at = CURRENT_TIMESTAMP WHERE username = $1
RETURNING username`: the new state and the returned rows. -/
def updateLastLogin (db : Store) (username : Option String) : Store × List String :=
  ({ db with users := db.users.map (fun r =>
        if selects username r.username then { r with last_login_at := db.now } else r) },
   (db.users.filter (fun r => selects username r.username)).map (fun r => r.username))

/-! ## `src/models/user.js` -/

/-- The object destructured by `User.register`. -/
structure RegisterBody where
  username : JSVal
  password : JSVal
  first_name : JSVal
  last_name : JSVal
  phone : JSVal
deriving DecidableEq, Repr

/-- The function `User.register({username, password, first_name, last_name, phone})`.
It returns `results.rows[0]`, which is `undefined` (`none`) when the query
returned no row. -/
def User.register (bcrypt : Bcrypt) (BCRYPT_WORK_FACTOR : Nat)
    (body : RegisterBody) (db : Store) : Run (Option RegisteredRow) :=
  if !truthy body.username || !truthy body.password || !truthy body.first_name
      || !truthy body.last_name || !truthy body.phone then
    { state := db, calls := [],
      result := .error (ExpressError "You must provide all info" 400) }
  else
    let hashed := ModelCall.bcryptHash body.password BCRYPT_WORK_FACTOR
    match bcryptHash bcrypt body.password BCRYPT_WORK_FACTOR db.salt with
    | .error e => { state := db, calls := [hashed], result := .error e }
    | .ok hashedPw =>
      let db1 := { db with salt := db.salt + 1 }
      let query := ModelCall.insertUser (text body.username) hashedPw
        (text body.first_name) (text body.last_name) (text body.phone)
      match insertUser db1 (text body.username) hashedPw
          (text body.first_name) (text body.last_name) (text body.phone) with
      | (db2, .error e) => { state := db2, calls := [hashed, query], result := .error e }
      | (db2, .ok rows) =>
        { state := db2, calls := [hashed, query], result := .ok rows.head? }

/-- The function `User.authenticate(username, password)`: it returns
`user && await bcrypt.compare(password, user.password)`, which is
`undefined` when `user` is. -/
def User.authenticate (bcrypt : Bcrypt) (username password : JSVal)
    (db : Store) : Run JSVal :=
  if !truthy username || !truthy password then
    { state := db, calls := [],
      result := .error (ExpressError "You must provide a username and a password" 400) }
  else
    let query := ModelCall.selectPassword (prepareValue username)
    match (selectPassword db (prepareValue username)).head? with
    | none => { state := db, calls := [query], result := .ok .undefined }
    | some userPassword =>
      match bcryptCompare bcrypt password userPassword with
      | .error e =>
        { state := db, calls := [query, .bcryptCompare password userPassword],
          result := .error e }
      | .ok same =>
        { state := db, calls := [query, .bcryptCompare password userPassword],
          result := .ok (.bool same) }

/-- The function `User.updateLoginTimestamp(username)`. -/
def User.updateLoginTimestamp (username : JSVal) (db : Store) : Run Unit :=
  let results := updateLastLogin db (prepareValue username)
  match results.2.head? with
  | none =>
    { state := results.1, calls := [.updateLastLogin (prepareValue username)],
      result := .error (ExpressError ("No user named " ++ interpolate username) 404) }
  | some _ =>
    { state := results.1, calls := [.updateLastLogin (prepareValue username)],
      result := .ok () }

/-- The user model as the route handlers see it (`require('../models/user')`):
each function maps a state to the new state and the value returned or the
error thrown. -/
structure UserModel (σ : Type) where
  register : RegisterBody → σ → σ × Except JSError (Option RegisteredRow)
  authenticate : JSVal → JSVal → σ → σ × Except JSError JSVal
  updateLoginTimestamp : JSVal → σ → σ × Except JSError Unit

/-- The user model of `src/models/user.js` over the store. -/
def User.model (bcrypt : Bcrypt) (BCRYPT_WORK_FACTOR : Nat) : UserModel Store where
  register := fun body db =>
    ((User.register bcrypt BCRYPT_WORK_FACTOR body db).state,
     (User.register bcrypt BCRYPT_WORK_FACTOR body db).result)
  authenticate := fun username password db =>
    ((User.authenticate bcrypt username password db).state,
     (User.authenticate bcrypt username password db).result)
  updateLoginTimestamp := fun username db =>
    ((User.updateLoginTimestamp username db).state,
     (User.updateLoginTimestamp username db).result)

/-! ## Messages -/

/-- The identity summary `{username, first_name, last_name, phone}`. -/
structure UserSummary where
  username : String
  first_name : String
  last_name : String
  phone : String
deriving DecidableEq, Repr

/-- A message as returned by `Message.get`. -/
structure Message where
  id : Nat
  body : String
  sent_at : Nat
  read_at : Option Nat
  from_user : UserSummary
  to_user : UserSummary
deriving DecidableEq, Repr

/-- The `{id, read_at}` returned by `Message.markRead`. -/
structure ReadReceipt where
  id : Nat
  read_at : Option Nat
deriving DecidableEq, Repr

/-- The message model as the route handlers see it
(`require('../models/message')`). -/
structure MessageModel (σ : Type) where
  get : Nat → σ → σ × Except JSError Message
  markRead : Nat → σ → σ × Except JSError ReadReceipt

/-- Modelled from the spec: `src/models/message.js` is not in the source
files. The Message Directory holds the messages and the clock. -/
structure MessageDir where
  messages : List Message
  now : Nat
deriving DecidableEq, Repr

/-- Modelled from the spec: `get(id) -> Message | NotFound`. -/
def MessageDir.get (id : Nat) (d : MessageDir) : MessageDir × Except JSError Message :=
  match d.messages.find? (fun m => m.id == id) with
  | some m => (d, .ok m)
  | none => (d, .error (ExpressError "No such message" 404))

/-- Modelled from the spec: `markRead(id) -> Message` sets read_at if unset
and fails with `NotFound` if the id is absent. -/
def MessageDir.markRead (id : Nat) (d : MessageDir) :
    MessageDir × Except JSError ReadReceipt :=
  match d.messages.find? (fun m => m.id == id) with
  | some m =>
    ({ d with messages := d.messages.map (fun x =>
        if x.id == id then { x with read_at := some (x.read_at.getD d.now) } else x) },
     .ok { id := m.id, read_at := some (m.read_at.getD d.now) })
  | none => (d, .error (ExpressError "No such message" 404))

/-- Modelled from the spec: the message model over the Message Directory. -/
def MessageDir.model : MessageModel MessageDir where
  get := MessageDir.get
  markRead := MessageDir.markRead

/-! ## Route handlers -/

/-- The body passed to `res.json`. -/
inductive ResBody where
  | token (token : String)
  | message (message : Message)
  | receipt (message : ReadReceipt)
deriving DecidableEq, Repr

/-- What a route handler does, in order. -/
inductive Effect where
  | userRegister (body : RegisterBody)
  | userAuthenticate (username password : JSVal)
  | userUpdateLoginTimestamp (username : JSVal)
  | messageGet (id : Nat)
  | messageMarkRead (id : Nat)
  | jwtSign (username : JSVal) (key : String)
  | resJson (body : ResBody)
  | next (e : JSError)
  | unhandledRejection (e : JSError)
deriving DecidableEq, Repr

/-- Is the effect a call of `next`? -/
def Effect.isNext : Effect → Bool
  | .next _ => true
  | _ => false

/-- Is the effect a call of `res.json`? -/
def Effect.isResponse : Effect → Bool
  | .resJson _ => true
  | _ => false

/-- Is the effect a call of `jwt.sign`? -/
def Effect.isSign : Effect → Bool
  | .jwtSign .. => true
  | _ => false

/-- Is the effect a call of `User.updateLoginTimestamp`? -/
def Effect.isUpdateLoginTimestamp : Effect → Bool
  | .userUpdateLoginTimestamp _ => true
  | _ => false

/-- Is the effect a call of `Message.markRead`? -/
def Effect.isMarkRead : Effect → Bool
  | .messageMarkRead _ => true
  | _ => false

/-- What the client and the error boundary observe of a handler: its calls
of `res.json` and of `next`, in order. -/
def outcome (effects : List Effect) : List Effect :=
  effects.filter (fun e => e.isResponse || e.isNext)

/-- The settlement of a promise nobody awaits: a rejection is unhandled, a
fulfilment is dropped. -/
def floating (r : Except JSError Unit) : List Effect :=
  match r with
  | .error e => [.unhandledRejection e]
  | .ok _ => []

/-- The `{username, password}` destructured from `req.body` by `/login`. -/
structure LoginBody where
  username : JSVal
  password : JSVal
deriving DecidableEq, Repr

/-- The handler of `router.post('/login')` in `src/routes/auth.js`.
`sign username key` is `jwt.sign({username}, key)`. -/
def postLogin {σ : Type} (U : UserModel σ) (sign : JSVal → String → String)
    (SECRET_KEY : String) (body : LoginBody) (s : σ) : σ × List Effect :=
  match U.authenticate body.username body.password s with
  | (s1, .error e) =>
    (s1, [.userAuthenticate body.username body.password, .next e])
  | (s1, .ok valid) =>
    if truthy valid then
      let token := sign body.username SECRET_KEY
      match U.updateLoginTimestamp body.username s1 with
      | (s2, settled) =>
        (s2, [.userAuthenticate body.username body.password,
              .jwtSign body.username SECRET_KEY,
              .userUpdateLoginTimestamp body.username,
              .resJson (.token token)] ++ floating settled)
    else
      (s1, [.userAuthenticate body.username body.password,
            .next (ExpressError "Invalid username/password" 400)])

/-- The `catch (e)` block of the handler of `router.post('/register')`. -/
def registerCatch (e : JSError) : List Effect :=
  (if e.code = some "23505" then
      [.next (ExpressError "Username taken, please pick another" 400)]
    else [])
  ++ [.next e]

/-- The handler of `router.post('/register')` in `src/routes/auth.js`. -/
def postRegister {σ : Type} (U : UserModel σ) (sign : JSVal → String → String)
    (SECRET_KEY : String) (body : RegisterBody) (s : σ) : σ × List Effect :=
  match U.register body s with
  | (s1, .ok none) =>
    (s1, [.userRegister body]
      ++ registerCatch (TypeError "Cannot destructure property 'username' of undefined"))
  | (s1, .ok (some row)) =>
    let token := sign (.str row.username) SECRET_KEY
    match U.updateLoginTimestamp (.str row.username) s1 with
    | (s2, settled) =>
      (s2, [.userRegister body,
            .jwtSign (.str row.username) SECRET_KEY,
            .userUpdateLoginTimestamp (.str row.username),
            .resJson (.token token)] ++ floating settled)
  | (s1, .error e) => (s1, [.userRegister body] ++ registerCatch e)

/-- What an identifier in scope of a handler of `src/routes/messages.js` is
bound to. -/
inductive Binding where
  | username (s : String)
  | message (m : Message)
  | other
deriving DecidableEq, Repr

/-- The identifiers bound at module level in `src/routes/messages.js`, and
the parameters of a handler. -/
def moduleScope : List (String × Binding) :=
  [("req", .other), ("res", .other), ("next", .other),
   ("express", .other), ("router", .other), ("Message", .other),
   ("ensureLoggedIn", .other), ("ensureCorrectUser", .other),
   ("ExpressError", .other)]

/-- Evaluating an identifier: its binding, or a ReferenceError. -/
def resolve (scope : List (String × Binding)) (ident : String) : Except JSError Binding :=
  match scope.lookup ident with
  | some b => .ok b
  | none => .error (ReferenceError ident)

/-- The two identity summaries of a message. -/
inductive Party where
  | to_user
  | from_user
deriving DecidableEq, Repr

/-- Evaluating `ident.to_user.username` or `ident.from_user.username`. -/
def partyUsername (scope : List (String × Binding)) (ident : String) (p : Party) :
    Except JSError String :=
  match resolve scope ident with
  | .error e => .error e
  | .ok (.message m) =>
    match p with
    | .to_user => .ok m.to_user.username
    | .from_user => .ok m.from_user.username
  | .ok _ =>
    .error (TypeError ("Cannot read properties of undefined (reading 'username')"))

/-- The handler of `router.get('/:id')` in `src/routes/messages.js`, run
after `ensureLoggedIn` let the request through; `reqUser` is
`req.user.username` and `id` is `req.params.id`. -/
def getMessage {σ : Type} (M : MessageModel σ) (reqUser : String) (id : Nat) (s : σ) :
    σ × List Effect :=
  match M.get id s with
  | (s1, .error e) => (s1, [.messageGet id, .next e])
  | (s1, .ok message) =>
    let scope := [("user", Binding.username reqUser), ("message", .message message)]
      ++ moduleScope
    let denied : Except JSError Bool :=
      match partyUsername scope "msg" .to_user with
      | .error e => .error e
      | .ok toName =>
        if toName != reqUser then
          match partyUsername scope "msg" .from_user with
          | .error e => .error e
          | .ok fromName => .ok (fromName != reqUser)
        else .ok false
    match denied with
    | .error e => (s1, [.messageGet id, .next e])
    | .ok true =>
      (s1, [.messageGet id,
            .next (ExpressError "We're gonna pretend you didn't read that..." 401)])
    | .ok false => (s1, [.messageGet id, .resJson (.message message)])

/-- The handler of `router.post('/:id/read')` in `src/routes/messages.js`,
run after `ensureLoggedIn` let the request through. -/
def postMessageRead {σ : Type} (M : MessageModel σ) (reqUser : String) (id : Nat) (s : σ) :
    σ × List Effect :=
  match M.get id s with
  | (s1, .error e) => (s1, [.messageGet id, .next e])
  | (s1, .ok msg) =>
    let scope := [("user", Binding.username reqUser), ("msg", .message msg)]
      ++ moduleScope
    match partyUsername scope "msg" .to_user with
    | .error e => (s1, [.messageGet id, .next e])
    | .ok toName =>
      if toName != reqUser then
        (s1, [.messageGet id,
              .next (ExpressError "We're gonna pretend you didn't read that..." 401)])
      else
        match M.markRead id s1 with
        | (s2, .error e) => (s2, [.messageGet id, .messageMarkRead id, .next e])
        | (s2, .ok message) =>
          (s2, [.messageGet id, .messageMarkRead id, .resJson (.receipt message)])

/-! ## Vocabulary of the properties -/

/-- A request body field that is absent or the empty string. -/
def absentOrEmpty (v : JSVal) : Prop := v = .undefined ∨ v = .str ""

/-- What `User.updateLoginTimestamp` may change in a row: nothing when the
row is of another user, and only `last_login_at` (set to the current
timestamp) when it is the row of `username`. -/
def touched (username : Option String) (now : Nat) (old new : UserRow) : Prop :=
  new.username = old.username ∧ new.password = old.password
    ∧ new.first_name = old.first_name ∧ new.last_name = old.last_name
    ∧ new.phone = old.phone ∧ new.join_at = old.join_at
    ∧ (username ≠ some old.username → new = old)
    ∧ (username = some old.username → new.last_login_at = now)

/-- The calls of `next` a handler made, in order. -/
def nextCalls (effects : List Effect) : List Effect :=
  effects.filter (fun e => e.isNext)

/-! ## Concrete instances used to run the code -/

/-- A toy hasher: the hash is the data followed by a marker. -/
def toyBcrypt : Bcrypt where
  hash := fun data _ _ => data ++ "$"
  compare := fun data hash => data ++ "$" == hash

/-- A toy signer. -/
def toySign (username : JSVal) (key : String) : String :=
  key ++ "." ++ interpolate username

/-- The registration input of alice. -/
def aliceBody : RegisterBody :=
  { username := .str "alice", password := .str "pw", first_name := .str "Alice",
    last_name := .str "A", phone := .str "555" }

/-- The row of alice, registered with password `pw` through `toyBcrypt`. -/
def aliceRow : UserRow :=
  { username := "alice", password := "pw$", first_name := "Alice", last_name := "A",
    phone := "555", join_at := 1, last_login_at := 1 }

/-- The row of bob. -/
def bobRow : UserRow :=
  { username := "bob", password := "hunter2$", first_name := "Bob", last_name := "B",
    phone := "556", join_at := 2, last_login_at := 2 }

/-- An empty store. -/
def emptyStore : Store := { users := [], now := 7, salt := 0 }

/-- A store holding alice and bob. -/
def twoUsers : Store := { users := [aliceRow, bobRow], now := 9, salt := 3 }

/-- The user model in which the identity vanishes between `authenticate`
and `updateLoginTimestamp`: the UPDATE runs on a store without rows. -/
def vanishingModel (bcrypt : Bcrypt) (BCRYPT_WORK_FACTOR : Nat) : UserModel Store :=
  { User.model bcrypt BCRYPT_WORK_FACTOR with
    updateLoginTimestamp := fun username db =>
      ((User.updateLoginTimestamp username { db with users := [] }).state,
       (User.updateLoginTimestamp username { db with users := [] }).result) }

/-- A message from alice to bob. -/
def aliceToBob : Message :=
  { id := 1, body := "hi", sent_at := 3, read_at := none,
    from_user := { username := "alice", first_name := "Alice", last_name := "A",
                   phone := "555" },
    to_user := { username := "bob", first_name := "Bob", last_name := "B",
                 phone := "556" } }

/-- A directory holding that message. -/
def oneMessage : MessageDir := { messages := [aliceToBob], now := 10 }

/-! ## Facts about the store -/

theorem truthy_false_of_absentOrEmpty (v : JSVal) (h : absentOrEmpty v) :
    truthy v = false := by
  rcases h with h | h <;> simp [h, truthy]

theorem prepareValue_of_truthy (v : JSVal) (h : truthy v = true) :
    prepareValue v = some (text v) := by
  cases v <;> simp [truthy] at h <;> simp [text, prepareValue]

theorem filter_selects_eq_nil (users : List UserRow) (u : String)
    (h : u ∉ users.map (fun r => r.username)) :
    users.filter (fun r => selects (some u) r.username) = [] := by
  rw [List.filter_eq_nil_iff]
  intro r hr hsel
  apply h
  simp only [selects, beq_iff_eq, Option.some.injEq] at hsel
  exact List.mem_map.mpr ⟨r, hr, hsel.symm⟩

theorem selectPassword_eq_nil (db : Store) (u : String)
    (h : u ∉ db.users.map (fun r => r.username)) :
    selectPassword db (some u) = [] := by
  simp [selectPassword, filter_selects_eq_nil db.users u h]

theorem updateLastLogin_rows_eq_nil_iff (db : Store) (username : Option String) :
    (updateLastLogin db username).2 = [] ↔ ∀ r ∈ db.users, username ≠ some r.username := by
  simp [updateLastLogin, List.filter_eq_nil_iff, selects]

theorem insertUser_of_fresh (db : Store) (username hashedPw first_name last_name phone : String)
    (h : username ∉ db.users.map (fun r => r.username)) :
    insertUser db username hashedPw first_name last_name phone =
      ({ db with users := db.users ++
          [{ username := username, password := hashedPw, first_name := first_name,
             last_name := last_name, phone := phone,
             join_at := db.now, last_login_at := db.now }] },
       .ok [RegisteredRow.mk username hashedPw first_name last_name phone]) := by
  unfold insertUser
  rw [if_neg h]

/-! ## The user model -/

/-- C8: when at least one of username, password, first_name, last_name, phone
is absent or the empty string, `User.register` throws the ExpressError
'You must provide all info' with status 400, makes no call at all on bcrypt
or the database (so no `bcrypt.hash` and no INSERT), and leaves the store as
it was. -/
theorem register_rejects_incomplete_input (bcrypt : Bcrypt) (BCRYPT_WORK_FACTOR : Nat)
    (body : RegisterBody) (db : Store)
    (h : absentOrEmpty body.username ∨ absentOrEmpty body.password ∨
      absentOrEmpty body.first_name ∨ absentOrEmpty body.last_name ∨
      absentOrEmpty body.phone) :
    (User.register bcrypt BCRYPT_WORK_FACTOR body db).result
        = .error (ExpressError "You must provide all info" 400)
      ∧ (ExpressError "You must provide all info" 400).status = some 400
      ∧ (User.register bcrypt BCRYPT_WORK_FACTOR body db).calls = []
      ∧ (∀ c ∈ (User.register bcrypt BCRYPT_WORK_FACTOR body db).calls,
          c.isHash = false ∧ c.isInsert = false)
      ∧ (User.register bcrypt BCRYPT_WORK_FACTOR body db).state = db := by
  have hguard : (!truthy body.username || !truthy body.password || !truthy body.first_name
      || !truthy body.last_name || !truthy body.phone) = true := by
    rcases h with h | h | h | h | h <;>
      simp [truthy_false_of_absentOrEmpty _ h]
  simp only [User.register, hguard, if_true]
  simp [ExpressError]

/-- C8 at a concrete input: a registration without a phone number. -/
theorem register_rejects_incomplete_input_witness :
    (User.register toyBcrypt 12 { aliceBody with phone := .undefined } twoUsers).result
        = .error (ExpressError "You must provide all info" 400)
      ∧ (User.register toyBcrypt 12 { aliceBody with phone := .undefined } twoUsers).calls
        = [] := by
  have h := register_rejects_incomplete_input toyBcrypt 12
    { aliceBody with phone := .undefined } twoUsers
    (Or.inr (Or.inr (Or.inr (Or.inr (Or.inl rfl)))))
  exact ⟨h.1, h.2.2.1⟩

theorem forall₂_touched (username : Option String) (now : Nat) (users : List UserRow) :
    List.Forall₂ (touched username now) users
      (users.map (fun r =>
        if selects username r.username then { r with last_login_at := now } else r)) := by
  induction users with
  | nil => exact List.Forall₂.nil
  | cons r rest ih =>
    refine List.Forall₂.cons ?_ ih
    by_cases hsel : username = some r.username
    · simp [touched, selects, hsel]
    · simp [touched, selects, hsel]

theorem updateLoginTimestamp_of_no_row (username : JSVal) (db : Store)
    (h : (updateLastLogin db (prepareValue username)).2 = []) :
    User.updateLoginTimestamp username db =
      { state := (updateLastLogin db (prepareValue username)).1,
        calls := [.updateLastLogin (prepareValue username)],
        result := .error (ExpressError ("No user named " ++ interpolate username) 404) } := by
  simp only [User.updateLoginTimestamp, h, List.head?_nil]

theorem updateLoginTimestamp_of_row (username : JSVal) (db : Store)
    (x : String) (xs : List String)
    (h : (updateLastLogin db (prepareValue username)).2 = x :: xs) :
    User.updateLoginTimestamp username db =
      { state := (updateLastLogin db (prepareValue username)).1,
        calls := [.updateLastLogin (prepareValue username)],
        result := .ok () } := by
  simp only [User.updateLoginTimestamp, h, List.head?_cons]

/-- C9: `User.updateLoginTimestamp` throws an error with status 404 exactly
when the UPDATE returns no row, which is exactly when no row of the store
has that username; when some row has it the call returns without error.
In every case the store keeps its rows in place, rows of other users are
unchanged, and a row of that user changes in `last_login_at` only. The
username is any value; the rows it selects are those whose username is
the text the driver sends for it. -/
theorem updateLoginTimestamp_notFound_iff_absent (username : JSVal) (db : Store) :
    ((∃ e, (User.updateLoginTimestamp username db).result = .error e ∧ e.status = some 404)
        ↔ (updateLastLogin db (prepareValue username)).2 = [])
      ∧ ((updateLastLogin db (prepareValue username)).2 = []
        ↔ ∀ r ∈ db.users, prepareValue username ≠ some r.username)
      ∧ ((∃ r ∈ db.users, prepareValue username = some r.username)
        ↔ (User.updateLoginTimestamp username db).result = .ok ())
      ∧ List.Forall₂ (touched (prepareValue username) db.now) db.users
          (User.updateLoginTimestamp username db).state.users
      ∧ (User.updateLoginTimestamp username db).state.now = db.now
      ∧ (User.updateLoginTimestamp username db).state.salt = db.salt := by
  have hrows := updateLastLogin_rows_eq_nil_iff db (prepareValue username)
  have hstate : (User.updateLoginTimestamp username db).state
      = (updateLastLogin db (prepareValue username)).1 := by
    cases hq : (updateLastLogin db (prepareValue username)).2 with
    | nil => rw [updateLoginTimestamp_of_no_row username db hq]
    | cons x xs => rw [updateLoginTimestamp_of_row username db x xs hq]
  refine ⟨?_, hrows, ?_, ?_, ?_, ?_⟩
  · cases hq : (updateLastLogin db (prepareValue username)).2 with
    | nil =>
      rw [updateLoginTimestamp_of_no_row username db hq]
      simp [ExpressError]
    | cons x xs =>
      rw [updateLoginTimestamp_of_row username db x xs hq]
      simp
  · cases hq : (updateLastLogin db (prepareValue username)).2 with
    | nil =>
      rw [updateLoginTimestamp_of_no_row username db hq]
      have hnone := hrows.mp hq
      constructor
      · rintro ⟨r, hr, hu⟩
        exact absurd hu (hnone r hr)
      · intro h
        simp at h
    | cons x xs =>
      rw [updateLoginTimestamp_of_row username db x xs hq]
      simp only [iff_true]
      by_contra hcon
      have hall : ∀ r ∈ db.users, prepareValue username ≠ some r.username := by
        intro r hr hu
        exact hcon ⟨r, hr, hu⟩
      have hnil := hrows.mpr hall
      rw [hq] at hnil
      cases hnil
  · rw [hstate]
    exact forall₂_touched (prepareValue username) db.now db.users
  · rw [hstate]; rfl
  · rw [hstate]; rfl

/-- C9 at concrete inputs: a user that is absent, and one that is present. -/
theorem updateLoginTimestamp_examples :
    (User.updateLoginTimestamp (.str "carol") twoUsers).result
        = .error (ExpressError "No user named carol" 404)
      ∧ (User.updateLoginTimestamp (.str "carol") twoUsers).state = twoUsers
      ∧ (User.updateLoginTimestamp (.str "bob") twoUsers).result = .ok ()
      ∧ (User.updateLoginTimestamp (.str "bob") twoUsers).state.users
          = [aliceRow, { bobRow with last_login_at := 9 }] := by
  refine ⟨?_, ?_, ?_, ?_⟩ <;> decide

/-- C4: for a non-empty username and password and a store with no row of that
username, `User.authenticate` returns `undefined`, which is not the boolean
`false`; with a row of that username whose hash the password does not
match it returns the boolean `false`. The two values differ. -/
theorem authenticate_unknown_user_returns_undefined (bcrypt : Bcrypt)
    (username password : String) (db : Store)
    (hu : username ≠ "") (hp : password ≠ "")
    (hunknown : username ∉ db.users.map (fun r => r.username)) :
    (User.authenticate bcrypt (.str username) (.str password) db).result = .ok .undefined
      ∧ (User.authenticate bcrypt (.str username) (.str password) db).result
          ≠ .ok (.bool false)
      ∧ ∀ (known : Store) (hash : String),
          (selectPassword known (some username)).head? = some hash →
          bcrypt.compare password hash = false →
          (User.authenticate bcrypt (.str username) (.str password) known).result
              = .ok (.bool false)
            ∧ (User.authenticate bcrypt (.str username) (.str password) known).result
              ≠ (User.authenticate bcrypt (.str username) (.str password) db).result := by
  have hnone : (User.authenticate bcrypt (.str username) (.str password) db).result
      = .ok .undefined := by
    simp [User.authenticate, truthy, hu, hp, prepareValue,
      selectPassword_eq_nil db username hunknown]
  refine ⟨hnone, ?_, ?_⟩
  · rw [hnone]; simp
  · intro known hash hrow hcmp
    have hfalse : (User.authenticate bcrypt (.str username) (.str password) known).result
        = .ok (.bool false) := by
      simp [User.authenticate, truthy, hu, hp, prepareValue, hrow, bcryptCompare, hcmp]
    refine ⟨hfalse, ?_⟩
    rw [hfalse, hnone]; simp

/-- C4 at a concrete input: `User.authenticate('carol', 'pw')` on a store
holding only alice and bob returns `undefined`, not `false`. -/
theorem authenticate_unknown_user_example :
    (User.authenticate toyBcrypt (.str "carol") (.str "pw") twoUsers).result
        = .ok .undefined
      ∧ (User.authenticate toyBcrypt (.str "carol") (.str "pw") twoUsers).result
        ≠ .ok (.bool false)
      ∧ (User.authenticate toyBcrypt (.str "alice") (.str "wrong") twoUsers).result
        = .ok (.bool false) := by
  have h := authenticate_unknown_user_returns_undefined toyBcrypt "carol" "pw" twoUsers
    (by decide) (by decide) (by decide)
  exact ⟨h.1, h.2.1, by decide⟩

/-- C5: when the five fields of a registration are non-empty (truthy), the
password is a string and the username is not yet in the store,
`User.register` succeeds, returning the row it inserted, and, provided
`bcrypt.compare(p, bcrypt.hash(p, cost))` is true, `User.authenticate` with
the same username and password on the resulting store returns the boolean
`true`. -/
theorem register_then_authenticate (bcrypt : Bcrypt) (BCRYPT_WORK_FACTOR : Nat)
    (body : RegisterBody) (db : Store) (p : String)
    (hfields : truthy body.username = true ∧ truthy body.password = true
      ∧ truthy body.first_name = true ∧ truthy body.last_name = true
      ∧ truthy body.phone = true)
    (hpassword : body.password = .str p)
    (hfresh : text body.username ∉ db.users.map (fun r => r.username))
    (hhasher : ∀ (p : String) (salt : Nat),
      bcrypt.compare p (bcrypt.hash p BCRYPT_WORK_FACTOR salt) = true) :
    (∃ row, (User.register bcrypt BCRYPT_WORK_FACTOR body db).result = .ok (some row)
        ∧ some row.username = prepareValue body.username)
      ∧ (User.authenticate bcrypt body.username body.password
          (User.register bcrypt BCRYPT_WORK_FACTOR body db).state).result
        = .ok (.bool true) := by
  obtain ⟨hu, hp, hf, hl, hph⟩ := hfields
  have hprep := prepareValue_of_truthy body.username hu
  have hfilter := filter_selects_eq_nil db.users (text body.username) hfresh
  have hins := insertUser_of_fresh { db with salt := db.salt + 1 } (text body.username)
    (bcrypt.hash p BCRYPT_WORK_FACTOR db.salt)
    (text body.first_name) (text body.last_name) (text body.phone) hfresh
  have hhash : bcryptHash bcrypt body.password BCRYPT_WORK_FACTOR db.salt
      = .ok (bcrypt.hash p BCRYPT_WORK_FACTOR db.salt) := by
    rw [hpassword]; rfl
  have hreg : User.register bcrypt BCRYPT_WORK_FACTOR body db =
      { state := { db with
          users := db.users ++
            [{ username := text body.username,
               password := bcrypt.hash p BCRYPT_WORK_FACTOR db.salt,
               first_name := text body.first_name, last_name := text body.last_name,
               phone := text body.phone, join_at := db.now, last_login_at := db.now }],
          salt := db.salt + 1 },
        calls := [.bcryptHash body.password BCRYPT_WORK_FACTOR,
          .insertUser (text body.username) (bcrypt.hash p BCRYPT_WORK_FACTOR db.salt)
            (text body.first_name) (text body.last_name) (text body.phone)],
        result := .ok (some (RegisteredRow.mk (text body.username)
          (bcrypt.hash p BCRYPT_WORK_FACTOR db.salt)
          (text body.first_name) (text body.last_name) (text body.phone))) } := by
    have hguard : (!truthy body.username || !truthy body.password || !truthy body.first_name
        || !truthy body.last_name || !truthy body.phone) = false := by
      simp [hu, hp, hf, hl, hph]
    simp only [User.register, hguard, hhash, hins]
    simp
  rw [hreg]
  refine ⟨⟨_, rfl, hprep.symm⟩, ?_⟩
  have hsel : ∀ (row : UserRow) (now salt : Nat), row.username = text body.username →
      selectPassword { users := db.users ++ [row], now := now, salt := salt }
          (some (text body.username))
        = [row.password] := by
    intro row now salt hrow
    simp only [selectPassword, List.filter_append, hfilter, List.nil_append]
    simp [selects, hrow]
  have hguard : (!truthy body.username || !truthy body.password) = false := by
    simp [hu, hp]
  simp only [User.authenticate, hguard]
  rw [hprep, hsel _ _ _ rfl, hpassword]
  simp [bcryptCompare, hhasher]

/-- C5 at a concrete input: alice registers on an empty store and then
authenticates with the same password. -/
theorem register_then_authenticate_witness :
    (User.authenticate toyBcrypt aliceBody.username aliceBody.password
        (User.register toyBcrypt 12 aliceBody emptyStore).state).result
      = .ok (.bool true) :=
  (register_then_authenticate toyBcrypt 12 aliceBody emptyStore "pw"
    (by decide) rfl (by decide)
    (by intro p salt; simp [toyBcrypt])).2

/-! ## `src/routes/auth.js` -/

/-- C6, as the claim states it, fails: with the numeric password `1` (truthy,
so it passes the guard of `User.authenticate`) a login for an unknown
username ends in the ExpressError 'Invalid username/password' of status
400, while a login for a known username ends in the error with which
`bcrypt.compare` rejects data that is not a string. The two runs pass
different errors to `next`. -/
theorem login_numeric_password_distinguishes :
    (postLogin (User.model toyBcrypt 12) toySign "secret"
        { username := .str "alice", password := .num 1 } emptyStore).2
      = [.userAuthenticate (.str "alice") (.num 1),
         .next (ExpressError "Invalid username/password" 400)]
    ∧ (postLogin (User.model toyBcrypt 12) toySign "secret"
        { username := .str "alice", password := .num 1 } twoUsers).2
      = [.userAuthenticate (.str "alice") (.num 1), .next compareTypeError]
    ∧ (postLogin (User.model toyBcrypt 12) toySign "secret"
        { username := .str "alice", password := .num 1 } emptyStore).2
      ≠ (postLogin (User.model toyBcrypt 12) toySign "secret"
          { username := .str "alice", password := .num 1 } twoUsers).2 := by
  refine ⟨?_, ?_, ?_⟩ <;> decide

/-- C6, amended: for a login with a non-empty (truthy) username and a
password that is a non-empty string, the handler does exactly the same on
a store where the username is unknown as on a store where the username is
known and `bcrypt.compare` returns false for the password: it calls
`User.authenticate` and then `next` with the ExpressError
'Invalid username/password' of status 400, and leaves the store as it
was. It calls neither `jwt.sign`, `User.updateLoginTimestamp` nor
`res.json`. -/
theorem login_anti_enumeration (bcrypt : Bcrypt) (BCRYPT_WORK_FACTOR : Nat)
    (sign : JSVal → String → String) (SECRET_KEY : String)
    (username : JSVal) (password : String) (unknown known : Store) (hash : String)
    (hu : truthy username = true) (hp : password ≠ "")
    (hunknown : text username ∉ unknown.users.map (fun r => r.username))
    (hknown : (selectPassword known (prepareValue username)).head? = some hash)
    (hwrong : bcrypt.compare password hash = false) :
    postLogin (User.model bcrypt BCRYPT_WORK_FACTOR) sign SECRET_KEY
        { username := username, password := .str password } unknown
      = (unknown, [.userAuthenticate username (.str password),
          .next (ExpressError "Invalid username/password" 400)])
    ∧ postLogin (User.model bcrypt BCRYPT_WORK_FACTOR) sign SECRET_KEY
        { username := username, password := .str password } known
      = (known, [.userAuthenticate username (.str password),
          .next (ExpressError "Invalid username/password" 400)])
    ∧ (postLogin (User.model bcrypt BCRYPT_WORK_FACTOR) sign SECRET_KEY
        { username := username, password := .str password } unknown).2
      = (postLogin (User.model bcrypt BCRYPT_WORK_FACTOR) sign SECRET_KEY
          { username := username, password := .str password } known).2
    ∧ (ExpressError "Invalid username/password" 400).status = some 400
    ∧ (∀ e ∈ (postLogin (User.model bcrypt BCRYPT_WORK_FACTOR) sign SECRET_KEY
          { username := username, password := .str password } unknown).2
        ++ (postLogin (User.model bcrypt BCRYPT_WORK_FACTOR) sign SECRET_KEY
          { username := username, password := .str password } known).2,
        e.isSign = false ∧ e.isUpdateLoginTimestamp = false ∧ e.isResponse = false) := by
  have hprep := prepareValue_of_truthy username hu
  have hpw : truthy (.str password) = true := by
    simp [truthy, hp]
  have hguard : (!truthy username || !truthy (.str password)) = false := by
    rw [hu, hpw]; rfl
  have hnone : User.authenticate bcrypt username (.str password) unknown
      = { state := unknown, calls := [.selectPassword (prepareValue username)],
          result := .ok .undefined } := by
    simp only [User.authenticate, hguard]
    rw [hprep, selectPassword_eq_nil unknown (text username) hunknown]
    rfl
  have hfalse : User.authenticate bcrypt username (.str password) known
      = { state := known,
          calls := [.selectPassword (prepareValue username),
            .bcryptCompare (.str password) hash],
          result := .ok (.bool false) } := by
    simp only [User.authenticate, hguard, hknown, bcryptCompare, hwrong]
    rfl
  have h1 : postLogin (User.model bcrypt BCRYPT_WORK_FACTOR) sign SECRET_KEY
        { username := username, password := .str password } unknown
      = (unknown, [.userAuthenticate username (.str password),
          .next (ExpressError "Invalid username/password" 400)]) := by
    simp [postLogin, User.model, hnone, truthy]
  have h2 : postLogin (User.model bcrypt BCRYPT_WORK_FACTOR) sign SECRET_KEY
        { username := username, password := .str password } known
      = (known, [.userAuthenticate username (.str password),
          .next (ExpressError "Invalid username/password" 400)]) := by
    simp [postLogin, User.model, hfalse, truthy]
  refine ⟨h1, h2, ?_, rfl, ?_⟩
  · rw [h1, h2]
  · rw [h1, h2]
    simp [Effect.isSign, Effect.isUpdateLoginTimestamp, Effect.isResponse]

/-- C6 at a concrete input: alice is unknown in the empty store, and known in
the store of two users, where `wrong` is not her password. -/
theorem login_anti_enumeration_witness :
    postLogin (User.model toyBcrypt 12) toySign "secret"
        { username := .str "alice", password := .str "wrong" } emptyStore
      = (emptyStore, [.userAuthenticate (.str "alice") (.str "wrong"),
          .next (ExpressError "Invalid username/password" 400)])
    ∧ postLogin (User.model toyBcrypt 12) toySign "secret"
        { username := .str "alice", password := .str "wrong" } twoUsers
      = (twoUsers, [.userAuthenticate (.str "alice") (.str "wrong"),
          .next (ExpressError "Invalid username/password" 400)]) :=
  have h := login_anti_enumeration toyBcrypt 12 toySign "secret" (.str "alice") "wrong"
    emptyStore twoUsers "pw$" (by decide) (by decide) (by decide) (by decide) (by decide)
  ⟨h.1, h.2.1⟩

/-- C7: when `User.authenticate` returns a truthy value, the handler of
POST /login calls `res.json({token})` with `token = jwt.sign({username},
SECRET_KEY)` and never calls `next`, whatever `User.updateLoginTimestamp`
does: the calls of `res.json` and `next` are the same for any two
behaviours of `User.updateLoginTimestamp`. -/
theorem login_token_survives_timestamp_failure {σ : Type} (U : UserModel σ)
    (update1 update2 : JSVal → σ → σ × Except JSError Unit)
    (sign : JSVal → String → String) (SECRET_KEY : String)
    (body : LoginBody) (s : σ) (valid : JSVal)
    (hauth : (U.authenticate body.username body.password s).2 = .ok valid)
    (hvalid : truthy valid = true) :
    outcome (postLogin { U with updateLoginTimestamp := update1 } sign SECRET_KEY body s).2
        = [.resJson (.token (sign body.username SECRET_KEY))]
      ∧ outcome (postLogin { U with updateLoginTimestamp := update1 } sign SECRET_KEY body s).2
        = outcome (postLogin { U with updateLoginTimestamp := update2 } sign SECRET_KEY body s).2
      ∧ (∀ e ∈ (postLogin { U with updateLoginTimestamp := update1 } sign SECRET_KEY body s).2,
          e.isNext = false) := by
  have key : ∀ update : JSVal → σ → σ × Except JSError Unit,
      (postLogin { U with updateLoginTimestamp := update } sign SECRET_KEY body s).2
        = [.userAuthenticate body.username body.password,
           .jwtSign body.username SECRET_KEY,
           .userUpdateLoginTimestamp body.username,
           .resJson (.token (sign body.username SECRET_KEY))]
          ++ floating (update body.username (U.authenticate body.username body.password s).1).2 := by
    intro update
    rcases hr : U.authenticate body.username body.password s with ⟨s1, r⟩
    rw [hr] at hauth
    simp only at hauth
    subst hauth
    simp [postLogin, hr, hvalid]
  have hfloat : ∀ r : Except JSError Unit, outcome (floating r) = []
      ∧ ∀ e ∈ floating r, e.isNext = false := by
    intro r
    cases r <;> simp [floating, outcome, Effect.isResponse, Effect.isNext]
  have hout : ∀ update : JSVal → σ → σ × Except JSError Unit,
      outcome (postLogin { U with updateLoginTimestamp := update } sign SECRET_KEY body s).2
        = [.resJson (.token (sign body.username SECRET_KEY))] := by
    intro update
    rw [key update]
    unfold outcome
    rw [List.filter_append]
    have := (hfloat (update body.username
      (U.authenticate body.username body.password s).1).2).1
    unfold outcome at this
    rw [this]
    simp [Effect.isResponse, Effect.isNext]
  refine ⟨hout update1, (hout update1).trans (hout update2).symm, ?_⟩
  intro e he
  rw [key update1, List.mem_append] at he
  rcases he with he | he
  · simp only [List.mem_cons, List.mem_singleton, List.not_mem_nil, or_false] at he
    rcases he with rfl | rfl | rfl | rfl <;> rfl
  · exact (hfloat _).2 e he

/-- C7 at a concrete input: alice logs in with her password while her row
vanishes before the timestamp write; the write fails with status 404 and the
handler still answers with the token. -/
theorem login_token_survives_timestamp_failure_witness :
    (postLogin (vanishingModel toyBcrypt 12) toySign "secret"
        { username := .str "alice", password := .str "pw" } twoUsers).2
      = [.userAuthenticate (.str "alice") (.str "pw"),
         .jwtSign (.str "alice") "secret",
         .userUpdateLoginTimestamp (.str "alice"),
         .resJson (.token "secret.alice"),
         .unhandledRejection (ExpressError "No user named alice" 404)]
    ∧ outcome (postLogin (vanishingModel toyBcrypt 12) toySign "secret"
        { username := .str "alice", password := .str "pw" } twoUsers).2
      = [.resJson (.token (toySign (.str "alice") "secret"))] :=
  ⟨by decide,
   (login_token_survives_timestamp_failure (User.model toyBcrypt 12)
      (vanishingModel toyBcrypt 12).updateLoginTimestamp
      (User.model toyBcrypt 12).updateLoginTimestamp toySign "secret"
      { username := .str "alice", password := .str "pw" } twoUsers (.bool true)
      (by decide) (by decide)).1⟩

/-- C10: when `User.register` fails with an error whose `code` is '23505',
the handler of POST /register calls `next` twice: first with the
ExpressError 'Username taken, please pick another' of status 400, then with
the duplicate-key error itself. For any other failure it calls `next` once,
with that failure. In both cases it calls neither `jwt.sign` nor
`res.json`. -/
theorem register_duplicate_calls_next_twice {σ : Type} (U : UserModel σ)
    (sign : JSVal → String → String) (SECRET_KEY : String)
    (body : RegisterBody) (s : σ) (e : JSError)
    (hfail : (U.register body s).2 = .error e) :
    (e.code = some "23505" →
        nextCalls (postRegister U sign SECRET_KEY body s).2
          = [.next (ExpressError "Username taken, please pick another" 400), .next e])
      ∧ (e.code ≠ some "23505" →
        nextCalls (postRegister U sign SECRET_KEY body s).2 = [.next e])
      ∧ (∀ x ∈ (postRegister U sign SECRET_KEY body s).2,
          x.isSign = false ∧ x.isResponse = false) := by
  rcases hr : U.register body s with ⟨s1, r⟩
  rw [hr] at hfail
  simp only at hfail
  subst hfail
  refine ⟨?_, ?_, ?_⟩
  · intro hcode
    simp [postRegister, hr, registerCatch, hcode, nextCalls, Effect.isNext]
  · intro hcode
    simp [postRegister, hr, registerCatch, hcode, nextCalls, Effect.isNext]
  · intro x hx
    by_cases hcode : e.code = some "23505"
    · simp only [postRegister, hr, registerCatch, hcode, if_true, List.singleton_append,
        List.cons_append, List.nil_append, List.mem_cons, List.mem_singleton,
        List.not_mem_nil, or_false] at hx
      rcases hx with rfl | rfl | rfl <;> exact ⟨rfl, rfl⟩
    · simp only [postRegister, hr, registerCatch, hcode, if_false, List.singleton_append,
        List.cons_append, List.nil_append, List.append_nil, List.mem_cons,
        List.mem_singleton, List.not_mem_nil, or_false] at hx
      rcases hx with rfl | rfl <;> exact ⟨rfl, rfl⟩

/-- C10 at a concrete input: alice registers a second time. -/
theorem register_duplicate_example :
    (postRegister (User.model toyBcrypt 12) toySign "secret" aliceBody twoUsers).2
      = [.userRegister aliceBody,
         .next (ExpressError "Username taken, please pick another" 400),
         .next duplicateKey]
    ∧ nextCalls (postRegister (User.model toyBcrypt 12) toySign "secret" aliceBody twoUsers).2
      = [.next (ExpressError "Username taken, please pick another" 400),
         .next duplicateKey] :=
  ⟨by decide,
   (register_duplicate_calls_next_twice (User.model toyBcrypt 12) toySign "secret"
      aliceBody twoUsers duplicateKey (by decide)).1 (by decide)⟩

/-! ## `src/routes/messages.js` -/

/-- C1: whenever `Message.get` returns a message, the handler of GET /:id
evaluates the identifier `msg`, which is bound nowhere in its scope (the
fetched message is bound to `message`), so for every requester, the sender
and the recipient included, it passes a ReferenceError to `next` and never
calls `res.json`. -/
theorem getMessage_always_referenceError {σ : Type} (M : MessageModel σ)
    (reqUser : String) (id : Nat) (s s1 : σ) (message : Message)
    (hget : M.get id s = (s1, .ok message)) :
    getMessage M reqUser id s = (s1, [.messageGet id, .next (ReferenceError "msg")])
      ∧ (ReferenceError "msg").status = none
      ∧ (∀ e ∈ (getMessage M reqUser id s).2, e.isResponse = false) := by
  have hresolve : ∀ p, partyUsername
      ([("user", Binding.username reqUser), ("message", .message message)] ++ moduleScope)
      "msg" p = .error (ReferenceError "msg") := by
    intro p
    simp [partyUsername, resolve, moduleScope, List.lookup]
  have h : getMessage M reqUser id s
      = (s1, [.messageGet id, .next (ReferenceError "msg")]) := by
    simp only [getMessage, hget, hresolve]
  refine ⟨h, rfl, ?_⟩
  rw [h]
  simp [Effect.isResponse]

/-- C1 at a concrete input: alice asks for the message she sent to bob. -/
theorem getMessage_sender_example :
    getMessage MessageDir.model "alice" 1 oneMessage
      = (oneMessage, [.messageGet 1, .next (ReferenceError "msg")]) :=
  (getMessage_always_referenceError MessageDir.model "alice" 1 oneMessage oneMessage
    aliceToBob (by decide)).1

theorem partyUsername_msg (reqUser : String) (msg : Message) :
    partyUsername ([("user", Binding.username reqUser), ("msg", .message msg)] ++ moduleScope)
      "msg" .to_user = .ok msg.to_user.username := by
  simp [partyUsername, resolve, List.lookup]

theorem postMessageRead_of_recipient {σ : Type} (M : MessageModel σ)
    (id : Nat) (s s1 : σ) (msg : Message)
    (hget : M.get id s = (s1, .ok msg)) :
    postMessageRead M msg.to_user.username id s
      = ((M.markRead id s1).1,
         [.messageGet id, .messageMarkRead id,
          match (M.markRead id s1).2 with
          | .ok receipt => .resJson (.receipt receipt)
          | .error e => .next e]) := by
  simp only [postMessageRead, hget, partyUsername_msg]
  rcases hm : M.markRead id s1 with ⟨s2, r | r⟩ <;> simp

theorem postMessageRead_of_other {σ : Type} (M : MessageModel σ)
    (reqUser : String) (id : Nat) (s s1 : σ) (msg : Message)
    (hget : M.get id s = (s1, .ok msg)) (hne : reqUser ≠ msg.to_user.username) :
    postMessageRead M reqUser id s
      = (s1, [.messageGet id,
          .next (ExpressError "We're gonna pretend you didn't read that..." 401)]) := by
  have hne2 : (msg.to_user.username != reqUser) = true := by
    simpa using fun h => hne h.symm
  simp only [postMessageRead, hget, partyUsername_msg, hne2, if_true]

/-- C2: for a message that `Message.get` returns, the handler of
POST /:id/read calls `Message.markRead(id)` if and only if the requester is
the recipient of the message. For the recipient the handler runs
`Message.markRead(id)` on the state `Message.get` left, ends in the state
`Message.markRead` produced, and answers with `res.json` of what
`Message.markRead` returned (or passes on the error `Message.markRead`
threw). For every other requester, the sender included, it passes the
ExpressError of status 401 to `next`, leaves the state as `Message.get`
left it, and does not call `Message.markRead`. -/
theorem markRead_recipient_only {σ : Type} (M : MessageModel σ)
    (reqUser : String) (id : Nat) (s s1 : σ) (msg : Message)
    (hget : M.get id s = (s1, .ok msg)) :
    ((∃ e ∈ (postMessageRead M reqUser id s).2, e.isMarkRead = true)
        ↔ reqUser = msg.to_user.username)
      ∧ (reqUser = msg.to_user.username →
          postMessageRead M reqUser id s
            = ((M.markRead id s1).1,
               [.messageGet id, .messageMarkRead id,
                match (M.markRead id s1).2 with
                | .ok receipt => .resJson (.receipt receipt)
                | .error e => .next e]))
      ∧ (reqUser ≠ msg.to_user.username →
          postMessageRead M reqUser id s
            = (s1, [.messageGet id,
                .next (ExpressError "We're gonna pretend you didn't read that..." 401)]))
      ∧ (ExpressError "We're gonna pretend you didn't read that..." 401).status = some 401 := by
  refine ⟨?_, ?_, ?_, rfl⟩
  · by_cases hreq : reqUser = msg.to_user.username
    · subst hreq
      simp only [iff_true]
      rw [postMessageRead_of_recipient M id s s1 msg hget]
      exact ⟨.messageMarkRead id, by simp, rfl⟩
    · simp only [hreq, iff_false]
      rw [postMessageRead_of_other M reqUser id s s1 msg hget hreq]
      simp [Effect.isMarkRead]
  · intro hreq
    subst hreq
    exact postMessageRead_of_recipient M id s s1 msg hget
  · intro hreq
    exact postMessageRead_of_other M reqUser id s s1 msg hget hreq

/-- C2 at a concrete input: bob marks the message alice sent him, which sets
its `read_at` in the directory, and alice, its sender, is refused, which
leaves the directory as it was. -/
theorem markRead_recipient_only_witness :
    postMessageRead MessageDir.model "bob" 1 oneMessage
      = ({ messages := [{ aliceToBob with read_at := some 10 }], now := 10 },
         [.messageGet 1, .messageMarkRead 1,
          .resJson (.receipt { id := 1, read_at := some 10 })])
    ∧ postMessageRead MessageDir.model "alice" 1 oneMessage
      = (oneMessage, [.messageGet 1,
          .next (ExpressError "We're gonna pretend you didn't read that..." 401)]) :=
  have h := markRead_recipient_only MessageDir.model "bob" 1 oneMessage oneMessage
    aliceToBob (by decide)
  have h2 := markRead_recipient_only MessageDir.model "alice" 1 oneMessage oneMessage
    aliceToBob (by decide)
  ⟨(h.2.1 (by decide)).trans (by decide), h2.2.2.1 (by decide)⟩

/-- C3: when `Message.get` throws a NotFound error (status 404), the handlers
of GET /:id and of POST /:id/read both pass that same error to `next` and
do nothing else: no error of status 401 reaches `next`, nothing is sent,
and `Message.markRead` is not called. -/
theorem notFound_before_authorization {σ : Type} (M : MessageModel σ)
    (reqUser : String) (id : Nat) (s s1 : σ) (e : JSError)
    (hget : M.get id s = (s1, .error e)) (hstatus : e.status = some 404) :
    getMessage M reqUser id s = (s1, [.messageGet id, .next e])
      ∧ postMessageRead M reqUser id s = (s1, [.messageGet id, .next e])
      ∧ (∀ x ∈ (getMessage M reqUser id s).2 ++ (postMessageRead M reqUser id s).2,
          x.isMarkRead = false ∧ x.isResponse = false
            ∧ ∀ err, x = .next err → err = e ∧ err.status ≠ some 401) := by
  have h1 : getMessage M reqUser id s = (s1, [.messageGet id, .next e]) := by
    simp only [getMessage, hget]
  have h2 : postMessageRead M reqUser id s = (s1, [.messageGet id, .next e]) := by
    simp only [postMessageRead, hget]
  refine ⟨h1, h2, ?_⟩
  rw [h1, h2]
  intro x hx
  simp only [List.mem_append, List.mem_cons, List.mem_singleton, List.not_mem_nil,
    or_false, or_self] at hx
  rcases hx with rfl | rfl
  · refine ⟨rfl, rfl, ?_⟩
    intro err herr
    cases herr
  · refine ⟨rfl, rfl, ?_⟩
    intro err herr
    cases herr
    refine ⟨rfl, ?_⟩
    rw [hstatus]
    decide

/-- C3 at a concrete input: bob asks for, and tries to mark, a message that
does not exist. -/
theorem notFound_before_authorization_witness :
    getMessage MessageDir.model "bob" 2 oneMessage
      = (oneMessage, [.messageGet 2, .next (ExpressError "No such message" 404)])
    ∧ postMessageRead MessageDir.model "bob" 2 oneMessage
      = (oneMessage, [.messageGet 2, .next (ExpressError "No such message" 404)]) :=
  have h := notFound_before_authorization MessageDir.model "bob" 2 oneMessage oneMessage
    (ExpressError "No such message" 404) (by decide) (by decide)
  ⟨h.1, h.2.1⟩

end Messagely
